import Mathlib

/-!
Shallow embedding of the SF-traffic-problem transit-delay pipeline
(`src/model.py` and `src/feature_engineering.py`).

Conventions of the embedding:
* pandas/NumPy numeric values are modelled as `Rat` (the concrete programs
  only ever produce values for which IEEE-754 arithmetic is exact at the
  claim-relevant points; floating-point transcendentals `sin`/`cos`/`sqrt`
  are kept symbolic, see `Val.fsin`, `Val.fcos`, `Val.fsqrt`);
* Python exceptions are modelled by `Except PyError`; the constructors of
  `PyError` follow the specification's error taxonomy and each one records
  in its doc comment which concrete Python exception it stands for;
* a pandas `DataFrame` used by the predictor (`model.py`), whose columns
  are all numeric, is a `PFrame`: an ordered association list of named
  `Rat` columns;
* a pandas `DataFrame` used by the feature engine (`feature_engineering.py`)
  is a `Frame`: ordered named columns of tagged values `Val`, together with
  its row-label index and a flag recording whether that index is a
  `DatetimeIndex` (the default frames built by this repository's callers
  and tests all carry a plain `RangeIndex`, i.e. the flag is `false`).
-/

namespace SFTransit

/-- Python-level failures of the pipeline, named after the specification's
error taxonomy (spec section 7).  Each constructor's comment records the
concrete Python exception that the source raises. -/
inductive PyError where
  /-- The `ValueError("Model must be trained before making predictions")` /
  `ValueError("Model must be trained first")` /
  `ValueError("Cannot save untrained model")` — the untrained-state guard. -/
  | notTrained
  /-- The `KeyError` raised by `X[self.feature_names]` when a required feature
  column is absent from the prediction input. -/
  | featureMismatch
  /-- The `ValueError(f"Unknown model type: ...")` raised by the constructor. -/
  | unknownModelType
  /-- The `NotImplementedError` raised by `pandas.Series.shift(freq=...)` when
  the index is not a `DatetimeIndex`/`PeriodIndex`/`TimedeltaIndex`. -/
  | notImplemented
  /-- The `KeyError` raised by `df.groupby('route_id')['delay_minutes']` when
  the `delay_minutes` column does not exist. -/
  | keyError
  /-- The `TypeError` (unreachable in the repository's flows): comparing
  `list(X.columns)` against a `feature_names` that is still `None`. -/
  | typeError
  deriving DecidableEq, Repr

/-! ## The delay predictor (`src/model.py`) -/

/-- Symbolic IEEE-754 value used where the source computes a float that has
no exact rational form (standard deviations via `sqrt`, or the fixed
fallback constant). -/
inductive FloatVal where
  /-- The `sqrt q` for a rational `q` (kept symbolic). -/
  | fsqrt (q : Rat)
  /-- an exactly representable literal. -/
  | lit (q : Rat)
  deriving DecidableEq, Repr

/-- Abstract fitted scikit-learn regressor.  `raw` maps one feature row
(ordered as the columns handed to it) to the raw (unclamped) prediction;
`memberPreds` models the optional `estimators_` attribute (per-tree
predictors of an ensemble); `featureImportances` models the optional
`feature_importances_` attribute. -/
structure Estimator where
  raw : List Rat → Rat
  memberPreds : Option (List (List Rat → Rat))
  featureImportances : Option (List Rat)

/-- A freshly constructed `RandomForestRegressor(n_estimators=100, ...)`
before any call to `fit` (its behaviour is irrelevant: every use in the
claims is guarded by the trained flag or overwritten by `load`). -/
def defaultRandomForest : Estimator := ⟨fun _ => 0, some [], some []⟩

/-- A freshly constructed `GradientBoostingRegressor(...)` before `fit`. -/
def defaultGradientBoosting : Estimator := ⟨fun _ => 0, none, some []⟩

/-- Numeric prediction-input table: ordered association list of named
columns of rationals. -/
structure PFrame where
  cols : List (String × List Rat)

/-- The `list(X.columns)`. -/
def PFrame.columns (X : PFrame) : List String := X.cols.map Prod.fst

/-- Column lookup by name (first occurrence). -/
def PFrame.getCol (X : PFrame) (n : String) : Option (List Rat) :=
  (X.cols.find? (fun c => c.1 = n)).map Prod.snd

/-- The `X[names]` on the list of required columns: selects the named columns
in the given order, raising the `KeyError` (spec: `FeatureMismatchError`)
as soon as one is absent. -/
def PFrame.selectCols (X : PFrame) : List String → Except PyError (List (String × List Rat))
  | [] => .ok []
  | n :: ns =>
    match X.getCol n with
    | none => .error .featureMismatch
    | some vs => (X.selectCols ns).map (fun rest => (n, vs) :: rest)

/-- The `X[self.feature_names]` as a frame. -/
def PFrame.select (X : PFrame) (ns : List String) : Except PyError PFrame :=
  (X.selectCols ns).map PFrame.mk

/-- The rows of the frame, each ordered as the columns. -/
def PFrame.rowsOf (X : PFrame) : List (List Rat) :=
  (X.cols.map Prod.snd).transpose

/-- The `np.clip(x, lo, hi) = min (max x lo) hi` (pointwise). -/
def npClip (x lo hi : Rat) : Rat := min (max x lo) hi

/-- Stable insertion of `x` into a list sorted by the strict order `lt`. -/
def insertLt (lt : α → α → Bool) (x : α) : List α → List α
  | [] => [x]
  | y :: ys => if lt y x then y :: insertLt lt x ys else x :: y :: ys

/-- Stable insertion sort by the strict order `lt`.  This is the model of
the pandas sorts in the source; see the faithfulness note on
`Frame.sortByTimestamp` about tie order. -/
def sortLt (lt : α → α → Bool) : List α → List α
  | [] => []
  | x :: xs => insertLt lt x (sortLt lt xs)

/-- The `TransitDelayPredictor`'s instance state: model-type tag, underlying
estimator, stored feature-name contract (`None` until trained), trained
flag. -/
structure TransitDelayPredictor where
  model_type : String
  model : Estimator
  feature_names : Option (List String)
  is_trained : Bool

namespace TransitDelayPredictor

/-- The `TransitDelayPredictor.__init__(model_type)`: builds the untrained
predictor, rejecting unknown model-type tags. -/
def init (model_type : String) : Except PyError TransitDelayPredictor :=
  if model_type = "random_forest" then
    .ok ⟨model_type, defaultRandomForest, none, false⟩
  else if model_type = "gradient_boosting" then
    .ok ⟨model_type, defaultGradientBoosting, none, false⟩
  else
    .error .unknownModelType

/-- The `TransitDelayPredictor.predict(X)`: untrained guard; reorder/select the
columns to the stored feature-name contract when they differ; run the
estimator row-wise; clamp every prediction into `[-10, 60]`. -/
def predict (m : TransitDelayPredictor) (X : PFrame) : Except PyError (List Rat) :=
  if m.is_trained = false then .error .notTrained
  else
    match m.feature_names with
    | none => .error .typeError
    | some ns =>
      (if X.columns = ns then .ok X else X.select ns).map
        (fun X2 => X2.rowsOf.map (fun r => npClip (m.model.raw r) (-10) 60))

/-- Population variance (`np.std(..., ddof=0)` squared) of a list. -/
def popVar (xs : List Rat) : Rat :=
  if xs.length = 0 then 0
  else
    ((xs.map (fun x => (x - xs.sum / xs.length) ^ 2)).sum) / xs.length

/-- The `predict_with_confidence(X)`: clamped point predictions plus per-row
standard deviation across the ensemble members' raw predictions (note that
the member trees are evaluated on `X` as given, not on the reordered
frame); for estimators without members, the fixed fallback `2.0`. -/
def predict_with_confidence (m : TransitDelayPredictor) (X : PFrame) :
    Except PyError (List Rat × List FloatVal) := do
  let preds ← m.predict X
  match m.model.memberPreds with
  | some trees =>
    let rows := X.rowsOf
    let stds := (List.range preds.length).map
      (fun i => FloatVal.fsqrt (popVar (trees.map (fun t => t (rows.getD i [])))))
    pure (preds, stds)
  | none => pure (preds, preds.map (fun _ => FloatVal.lit 2))

/-- The `get_feature_importance()`: untrained guard, empty table when the
estimator exposes no importance measure, otherwise the feature names
paired with their importances sorted by descending importance. -/
def get_feature_importance (m : TransitDelayPredictor) :
    Except PyError (List (String × Rat)) :=
  if m.is_trained = false then .error .notTrained
  else
    match m.model.featureImportances with
    | none => .ok []
    | some imps =>
      .ok (sortLt (fun a b => decide (b.2 < a.2)) ((m.feature_names.getD []).zip imps))

/-- The serialized artifact written by `save` (the `model_data` dict that
goes through `joblib.dump`). -/
structure ModelData where
  model : Estimator
  model_type : String
  feature_names : Option (List String)
  is_trained : Bool

/-- The `save(path)`: untrained guard, then the full state as a blob. -/
def save (m : TransitDelayPredictor) : Except PyError ModelData :=
  if m.is_trained = false then .error .notTrained
  else .ok ⟨m.model, m.model_type, m.feature_names, m.is_trained⟩

/-- The `TransitDelayPredictor.load(path)`: reconstructs via the constructor on
the stored model-type tag, then restores estimator, feature-name contract
and trained flag from the blob. -/
def load (d : ModelData) : Except PyError TransitDelayPredictor :=
  (init d.model_type).map
    (fun p => { p with model := d.model, feature_names := d.feature_names,
                       is_trained := d.is_trained })

end TransitDelayPredictor

/-! ## The feature engine (`src/feature_engineering.py`) -/

/-- A pandas timestamp value (timezone-naive).  `epochSec` is the absolute
time in seconds and drives ordering, differences and index arithmetic; the
calendar accessors of the `.dt` namespace (`hour`, `dayofweek`, `day`,
`month`) are carried as attributes of the value, the Gregorian-calendar
relation between them and `epochSec` being taken as given. -/
structure Timestamp where
  epochSec : Int
  hour : Nat
  dayOfWeek : Nat
  day : Nat
  month : Nat
  deriving DecidableEq, Repr

/-- A cell of an event/feature table. -/
inductive Val where
  /-- an integer cell (e.g. `delay_seconds`, the temporal int features). -/
  | int (n : Int)
  /-- a float cell holding an exactly-representable rational. -/
  | rat (q : Rat)
  /-- a string cell (e.g. `route_id`). -/
  | str (s : String)
  /-- a datetime cell. -/
  | time (t : Timestamp)
  /-- float64 `sin(2 * pi * x)` for the rational ratio `x`, kept symbolic. -/
  | fsin (x : Rat)
  /-- float64 `cos(2 * pi * x)` for the rational ratio `x`, kept symbolic. -/
  | fcos (x : Rat)
  /-- float64 `sqrt q` for a rational `q`, kept symbolic (standard
  deviations). -/
  | fsqrt (q : Rat)
  /-- The `NaN` / missing value. -/
  | na
  deriving DecidableEq, Repr

/-- Numeric view of a cell (`NaN` and non-numeric cells excluded), as used
by the skip-NaN aggregations of pandas. -/
def Val.toRat? : Val → Option Rat
  | .int n => some (n : Rat)
  | .rat q => some q
  | _ => none

/-- Datetime view of a cell.  The engine only applies it to cells that the
modelled inputs populate with `Val.time`; the junk default stands for the
unmodelled behaviour of `.dt` accessors on non-datetime data. -/
def Val.toTime : Val → Timestamp
  | .time t => t
  | _ => ⟨0, 0, 0, 0, 0⟩

/-- An event/feature `DataFrame`: ordered named columns, the row-label
index, and whether that index is a `DatetimeIndex`.  Every frame this
repository's callers and tests pass to `create_features` is built by the
default `DataFrame` constructor and therefore carries a plain integer
`RangeIndex` (`indexIsDatetime = false`, `index = [0, 1, ...]`). -/
structure Frame where
  cols : List (String × List Val)
  index : List Int
  indexIsDatetime : Bool
  deriving DecidableEq, Repr

/-- The `list(df.columns)`. -/
def Frame.colNames (f : Frame) : List String := f.cols.map Prod.fst

/-- Column lookup by name (first occurrence). -/
def Frame.getCol (f : Frame) (n : String) : Option (List Val) :=
  (f.cols.find? (fun c => c.1 = n)).map Prod.snd

/-- The `df[n] = vs`: replace the column if present, append it otherwise. -/
def setColAux (n : String) (vs : List Val) : List (String × List Val) → List (String × List Val)
  | [] => [(n, vs)]
  | c :: cs => if c.1 = n then (n, vs) :: cs else c :: setColAux n vs cs

/-- The `df[n] = vs` on a frame (row labels unchanged). -/
def Frame.setCol (f : Frame) (n : String) (vs : List Val) : Frame :=
  { f with cols := setColAux n vs f.cols }

/-- The `len(df)`: the common length of the columns. -/
def Frame.nrows (f : Frame) : Nat :=
  ((f.cols.head?).map (fun c => c.2.length)).getD 0

/-- The timestamp column as timestamps. -/
def Frame.timestampCol (f : Frame) : List Timestamp :=
  ((f.getCol "timestamp").getD []).map Val.toTime

/-- The `route_id` column. -/
def Frame.routeCol (f : Frame) : List Val := (f.getCol "route_id").getD []

/-- The `delay_minutes` column. -/
def Frame.delayCol (f : Frame) : List Val := (f.getCol "delay_minutes").getD []

/-- Positions sorted ascending by their key (`np.argsort`-style), modelled
by a stable sort.  Faithfulness note: `DataFrame.sort_values` defaults to
`kind='quicksort'` (numpy introsort), whose relative order of tied keys is
*unspecified*; this model therefore agrees with the source exactly on
inputs whose sort keys are pairwise distinct — which is the case for every
concrete evaluation below — and picks the stable order on ties. -/
def argsortStable (keys : List Int) : List Nat :=
  (sortLt (fun a b => decide (a.2 < b.2))
    ((List.range keys.length).map (fun i => (i, keys.getD i 0)))).map Prod.fst

/-- The `df.sort_values('timestamp')`: reorder rows (and their index labels)
ascending by the timestamp column. -/
def Frame.sortByTimestamp (f : Frame) : Frame :=
  let order := argsortStable ((f.timestampCol).map (fun t => t.epochSec))
  { cols := f.cols.map (fun c => (c.1, order.map (fun i => c.2.getD i Val.na))),
    index := order.map (fun i => f.index.getD i 0),
    indexIsDatetime := f.indexIsDatetime }

/-- The `_add_temporal_features`: derive the time-based columns from the
timestamp column; identity when the frame has no timestamp column.
`pd.to_datetime` on already-parsed timestamps is the identity, so the
coercion in `create_features` is not represented separately. -/
def addTemporalFeatures (f : Frame) : Frame :=
  if "timestamp" ∈ f.colNames then
    let ts : List Timestamp := f.timestampCol
    let hrs : List Nat := ts.map (fun t => t.hour)
    let dows : List Nat := ts.map (fun t => t.dayOfWeek)
    let mp : List Nat := hrs.map (fun h => if 7 ≤ h ∧ h ≤ 9 then 1 else 0)
    let ep : List Nat := hrs.map (fun h => if 16 ≤ h ∧ h ≤ 18 then 1 else 0)
    let f := f.setCol "hour" (hrs.map (fun h : Nat => Val.int h))
    let f := f.setCol "day_of_week" (dows.map (fun d : Nat => Val.int d))
    let f := f.setCol "day_of_month" (ts.map (fun t => Val.int t.day))
    let f := f.setCol "month" (ts.map (fun t => Val.int t.month))
    let f := f.setCol "is_weekend"
      (dows.map (fun d : Nat => Val.int (if d = 5 ∨ d = 6 then 1 else 0)))
    let f := f.setCol "is_morning_peak" (mp.map (fun n : Nat => Val.int n))
    let f := f.setCol "is_evening_peak" (ep.map (fun n : Nat => Val.int n))
    let f := f.setCol "is_peak_hour"
      ((mp.zip ep).map (fun p => Val.int (Nat.lor p.1 p.2)))
    let f := f.setCol "hour_sin" (hrs.map (fun h => Val.fsin ((h : Rat) / 24)))
    let f := f.setCol "hour_cos" (hrs.map (fun h => Val.fcos ((h : Rat) / 24)))
    let f := f.setCol "dow_sin" (dows.map (fun d => Val.fsin ((d : Rat) / 7)))
    let f := f.setCol "dow_cos" (dows.map (fun d => Val.fcos ((d : Rat) / 7)))
    f
  else f

/-- The `x / 60` on a cell (seconds to minutes); `NaN` propagates. -/
def valDiv60 : Val → Val
  | .int n => .rat ((n : Rat) / 60)
  | .rat q => .rat (q / 60)
  | _ => .na

/-- The `(expected - aimed).dt.total_seconds() / 60` on one row. -/
def minutesBetween (a e : Val) : Val :=
  match a, e with
  | .time ta, .time te => .rat (((te.epochSec - ta.epochSec : Int) : Rat) / 60)
  | _, _ => .na

/-- The `_add_delay_features`: the delay target comes from `delay_seconds / 60`
when that column exists, otherwise from the aimed/expected arrival pair,
otherwise no target column is created. -/
def addDelayFeatures (f : Frame) : Frame :=
  if "delay_seconds" ∈ f.colNames then
    f.setCol "delay_minutes" (((f.getCol "delay_seconds").getD []).map valDiv60)
  else if "aimed_arrival" ∈ f.colNames ∧ "expected_arrival" ∈ f.colNames then
    f.setCol "delay_minutes"
      (List.zipWith minutesBetween ((f.getCol "aimed_arrival").getD [])
        ((f.getCol "expected_arrival").getD []))
  else f

/-- The positions `q ≤ p` whose `route_id` equals the one at `p` (the
`groupby('route_id')` group of row `p`, restricted to the prefix). -/
def groupPositions (routes : List Val) (p : Nat) : List Nat :=
  (List.range (p + 1)).filter
    (fun q => decide (routes.getD q Val.na = routes.getD p Val.na))

/-- The `df.groupby('route_id')['delay_minutes'].shift(freq=f'{hours}H')`,
assigned back into a column of `df`.  With `freq` given, pandas delegates
to `Series.shift(freq=...)` per group, which shifts *index labels* and
raises `NotImplementedError` unless the index is datetime-like — which it
never is in this repository's flows (plain `RangeIndex`).  In the
hypothetical datetime-index case, relabelling by `+hours` and realigning
on assignment amounts to the exact `label - hours*3600` lookup within the
row's route group (not an as-of lookup). -/
def groupShiftFreq (f : Frame) (hours : Nat) : Except PyError (List Val) :=
  if f.indexIsDatetime = false then .error .notImplemented
  else
    .ok ((List.range f.nrows).map (fun p =>
      if f.routeCol.getD p Val.na = Val.na then Val.na
      else
        match (List.range f.nrows).find? (fun q =>
            decide (f.routeCol.getD q Val.na = f.routeCol.getD p Val.na) &&
            decide (f.index.getD q 0 + (hours : Int) * 3600 = f.index.getD p 0)) with
        | some q => f.delayCol.getD q Val.na
        | none => Val.na))

/-- Arithmetic mean of a list of rationals. -/
def ratMean (xs : List Rat) : Rat := xs.sum / (xs.length : Rat)

/-- Sample variance (`ddof=1`) of a list of rationals (only used with at
least two elements). -/
def sampleVar (xs : List Rat) : Rat :=
  ((xs.map (fun x => (x - ratMean xs) ^ 2)).sum) / ((xs.length : Rat) - 1)

/-- The non-`NaN` delay values among the last `w` positions (row-count
window, as `rolling(window=w)` with an integer `w`) of row `p`'s route
group. -/
def rollingWindowVals (routes delays : List Val) (w p : Nat) : List Rat :=
  let ps := groupPositions routes p
  ((ps.drop (ps.length - w)).map (fun q => delays.getD q Val.na)).filterMap Val.toRat?

/-- The `groupby('route_id')['delay_minutes'].transform(λx. x.rolling(window=w,
min_periods=1).mean())`: `NaN` when the window holds no observation (or
the group key is `NaN`, which pandas drops). -/
def rollingMeanCol (f : Frame) (w : Nat) : List Val :=
  (List.range f.nrows).map (fun p =>
    if f.routeCol.getD p Val.na = Val.na then Val.na
    else
      let obs := rollingWindowVals f.routeCol f.delayCol w p
      if obs.length = 0 then Val.na else Val.rat (ratMean obs))

/-- Same with `.std()` (`ddof=1`): `NaN` until the window holds at least
two observations. -/
def rollingStdCol (f : Frame) (w : Nat) : List Val :=
  (List.range f.nrows).map (fun p =>
    if f.routeCol.getD p Val.na = Val.na then Val.na
    else
      let obs := rollingWindowVals f.routeCol f.delayCol w p
      if obs.length < 2 then Val.na else Val.fsqrt (sampleVar obs))

/-- The `f'delay_lag_{h}h'`. -/
def lagColName (h : Nat) : String := "delay_lag_" ++ toString h ++ "h"

/-- The `f'delay_rolling_mean_{w}h'`. -/
def rollingMeanName (w : Nat) : String := "delay_rolling_mean_" ++ toString w ++ "h"

/-- The `f'delay_rolling_std_{w}h'`. -/
def rollingStdName (w : Nat) : String := "delay_rolling_std_" ++ toString w ++ "h"

/-- The `_add_lag_features`: identity when `delay_minutes` or `route_id` is
absent; otherwise the per-horizon lag columns via the grouped
`shift(freq=...)` (which raises on the repository's integer-indexed
frames), then the per-window rolling mean/std columns. -/
def addLagFeatures (lagHours : List Nat) (f : Frame) : Except PyError Frame :=
  if "delay_minutes" ∈ f.colNames ∧ "route_id" ∈ f.colNames then do
    let f2 ← lagHours.foldlM
      (fun g h => (groupShiftFreq g h).map (fun vs => g.setCol (lagColName h) vs)) f
    let f3 := [3, 6, 12].foldl
      (fun g w =>
        let g1 := g.setCol (rollingMeanName w) (rollingMeanCol g w)
        g1.setCol (rollingStdName w) (rollingStdCol g1 w)) f2
    .ok f3
  else .ok f

/-- Mean of route `r`'s delays over the whole frame (`groupby.mean()`,
skip-`NaN`), as broadcast by `df['route_id'].map(route_avg_delay)`. -/
def groupMeanVal (routes delays : List Val) (r : Val) : Val :=
  if r = Val.na then Val.na
  else
    let obs := ((List.range routes.length).filter
        (fun q => decide (routes.getD q Val.na = r))).filterMap
      (fun q => (delays.getD q Val.na).toRat?)
    if obs.length = 0 then Val.na else Val.rat (ratMean obs)

/-- Sample standard deviation of route `r`'s delays over the whole frame
(`groupby.std()`, `ddof=1`), kept symbolic under `Val.fsqrt`. -/
def groupStdVal (routes delays : List Val) (r : Val) : Val :=
  if r = Val.na then Val.na
  else
    let obs := ((List.range routes.length).filter
        (fun q => decide (routes.getD q Val.na = r))).filterMap
      (fun q => (delays.getD q Val.na).toRat?)
    if obs.length < 2 then Val.na else Val.fsqrt (sampleVar obs)

/-- The `_add_route_features`: identity without `route_id`; with `route_id`
but without `delay_minutes`, `df.groupby('route_id')['delay_minutes']`
raises `KeyError`; otherwise broadcasts the per-route mean and std. -/
def addRouteFeatures (f : Frame) : Except PyError Frame :=
  if "route_id" ∈ f.colNames then
    if "delay_minutes" ∈ f.colNames then
      let f1 := f.setCol "route_avg_delay"
        ((f.routeCol).map (groupMeanVal f.routeCol f.delayCol))
      .ok (f1.setCol "route_delay_std"
        ((f.routeCol).map (groupStdVal f.routeCol f.delayCol)))
    else .error .keyError
  else .ok f

/-- The `_add_weather_features`: placeholder columns. -/
def addWeatherFeatures (f : Frame) : Frame :=
  let f := f.setCol "temperature" (List.replicate f.nrows Val.na)
  let f := f.setCol "precipitation" (List.replicate f.nrows Val.na)
  f.setCol "is_rainy" (List.replicate f.nrows (Val.int 0))

/-- The `_add_event_features`: placeholder columns. -/
def addEventFeatures (f : Frame) : Frame :=
  let f := f.setCol "is_holiday" (List.replicate f.nrows (Val.int 0))
  f.setCol "nearby_event" (List.replicate f.nrows (Val.int 0))

/-- The `TransitFeatureEngine`'s configuration. -/
structure TransitFeatureEngine where
  lag_hours : List Nat

/-- The default engine configuration (`lag_hours=[1, 3, 24, 168]`). -/
def defaultEngine : TransitFeatureEngine := ⟨[1, 3, 24, 168]⟩

/-- The `TransitFeatureEngine.create_features(df, include_weather,
include_events)` as a value-level function on the frame (the heap-level
rendering that makes the `df.copy()` aliasing behaviour observable is
`createFeaturesH` below). -/
def TransitFeatureEngine.create_features (e : TransitFeatureEngine) (df : Frame)
    (include_weather include_events : Bool) :
    Except PyError Frame := do
  let df := if "timestamp" ∈ df.colNames then df.sortByTimestamp else df
  let df := addTemporalFeatures df
  let df := addDelayFeatures df
  let df ← addLagFeatures e.lag_hours df
  let df ← addRouteFeatures df
  let df := if include_weather then addWeatherFeatures df else df
  let df := if include_events then addEventFeatures df else df
  .ok df

/-- The empty frame (placeholder for a dangling reference). -/
def Frame.empty : Frame := ⟨[], [], false⟩

/-- A heap of `DataFrame` objects; Python variables hold references
(positions) into it. -/
abbrev Heap := List Frame

/-- The final content of the fresh copy `create_features` works on,
paired with the call's outcome: on an exception the copy holds the frame
as mutated up to the point of the raise. -/
def createFeaturesBody (e : TransitFeatureEngine) (df0 : Frame)
    (include_weather include_events : Bool) : Frame × Except PyError Unit :=
  let s1 := addDelayFeatures (addTemporalFeatures
    (if "timestamp" ∈ df0.colNames then df0.sortByTimestamp else df0))
  match addLagFeatures e.lag_hours s1 with
  | .error err => (s1, .error err)
  | .ok s2 =>
    match addRouteFeatures s2 with
    | .error err => (s2, .error err)
    | .ok s3 =>
      let s4 := if include_weather then addWeatherFeatures s3 else s3
      ((if include_events then addEventFeatures s4 else s4), .ok ())

/-- Heap-level rendering of `create_features`: the caller's frame lives at
reference `r`; `df = df.copy()` allocates a fresh cell at the end of the
heap, and every in-place column assignment the method performs targets
that fresh cell only (see `createFeaturesBody`).  The returned reference
points at the fresh cell; the exception, when one is raised, propagates. -/
def createFeaturesH (e : TransitFeatureEngine) (heap : Heap) (r : Nat)
    (include_weather include_events : Bool) : Heap × Except PyError Nat :=
  let b := createFeaturesBody e (heap.getD r Frame.empty) include_weather include_events
  (heap ++ [b.1], b.2.map (fun _ => heap.length))

/-- Spec-side comparator (from the specification's words, not the
source): the rolling mean over the trailing *time* window of `wHours`
hours ending at the current row's timestamp, within the row's route
group, minimum one observation. -/
def specTimeWindowRollingMeanCol (wHours : Nat) (f : Frame) : List Val :=
  (List.range f.nrows).map (fun p =>
    let tp := ((f.timestampCol).getD p ⟨0, 0, 0, 0, 0⟩).epochSec
    let obs := ((List.range f.nrows).filter (fun q =>
        decide (f.routeCol.getD q Val.na = f.routeCol.getD p Val.na) &&
        decide (tp - (wHours : Int) * 3600 <
          ((f.timestampCol).getD q ⟨0, 0, 0, 0, 0⟩).epochSec) &&
        decide (((f.timestampCol).getD q ⟨0, 0, 0, 0, 0⟩).epochSec ≤ tp))).filterMap
      (fun q => (f.delayCol.getD q Val.na).toRat?)
    if obs.length = 0 then Val.na else Val.rat (ratMean obs))

/-- Amended formulation of the rolling mean (row-count window): the mean
of the non-`NaN` delays among the last at most `w` *observations* of the
row's route group, taken as the reversed prefix of the group. -/
def trailingObsMeanCol (f : Frame) (w : Nat) : List Val :=
  (List.range f.nrows).map (fun p =>
    if f.routeCol.getD p Val.na = Val.na then Val.na
    else
      let obs := (((groupPositions f.routeCol p).reverse.take w).map
        (fun q => f.delayCol.getD q Val.na)).filterMap Val.toRat?
      if obs.length = 0 then Val.na else Val.rat (obs.sum / (obs.length : Rat)))

/-- Amended formulation of the rolling standard deviation (row-count
window): sample standard deviation over the same window, unknown until it
holds at least two observations. -/
def trailingObsStdCol (f : Frame) (w : Nat) : List Val :=
  (List.range f.nrows).map (fun p =>
    if f.routeCol.getD p Val.na = Val.na then Val.na
    else
      let obs := (((groupPositions f.routeCol p).reverse.take w).map
        (fun q => f.delayCol.getD q Val.na)).filterMap Val.toRat?
      if obs.length < 2 then Val.na else Val.fsqrt (sampleVar obs))

/-! ## Concrete inputs used by the evaluation theorems and witnesses -/

/-- 08:00 on a Monday (absolute time in seconds; calendar attributes
consistent with it). -/
def ts0800 : Timestamp := ⟨8 * 3600, 8, 0, 1, 1⟩

/-- 10:30 on the same day. -/
def ts1030 : Timestamp := ⟨10 * 3600 + 1800, 10, 0, 1, 1⟩

/-- 18:00 on the same day. -/
def ts1800 : Timestamp := ⟨18 * 3600, 18, 0, 1, 1⟩

/-- 18:05 on the same day (five minutes after `ts1800`). -/
def ts1805 : Timestamp := ⟨18 * 3600 + 300, 18, 0, 1, 1⟩

/-- The specification's own lag example (spec section 8): route "14"
observed at 08:00 with a 120 s deviation and at 10:30 with a 300 s
deviation, in a `DataFrame` built the way this repository's callers and
tests build them (default integer `RangeIndex`). -/
def F1 : Frame :=
  ⟨[("timestamp", [.time ts0800, .time ts1030]),
    ("route_id", [.str "14", .str "14"]),
    ("delay_seconds", [.int 120, .int 300])], [0, 1], false⟩

/-- Route "A" observed at 08:00 (delay 0 s) and at 18:00 (delay 360 s):
the two observations are ten hours apart, so a three-hour trailing *time*
window at 18:00 contains only the second observation, while a three-*row*
window contains both. -/
def F2 : Frame :=
  ⟨[("timestamp", [.time ts0800, .time ts1800]),
    ("route_id", [.str "A", .str "A"]),
    ("delay_seconds", [.int 0, .int 360])], [0, 1], false⟩

/-- The frame `F2` as it reaches the rolling step: the delay target is
already in minutes. -/
def F3 : Frame :=
  ⟨[("route_id", [.str "A", .str "A"]),
    ("delay_minutes", [.rat 0, .rat 6])], [0, 1], false⟩

/-- One event carrying both target sources: a direct `delay_seconds` of
180 and an aimed/expected pair ten hours apart. -/
def FBoth : Frame :=
  ⟨[("delay_seconds", [.int 180]),
    ("aimed_arrival", [.time ts0800]),
    ("expected_arrival", [.time ts1800])], [0], false⟩

/-- One event carrying only the aimed/expected pair, five minutes apart. -/
def FPair : Frame :=
  ⟨[("aimed_arrival", [.time ts1800]),
    ("expected_arrival", [.time ts1805])], [0], false⟩

/-- A trained predictor whose raw estimator always outputs 200 (outside
the clamping range), with the one-feature contract `["hour"]`. -/
def mClip : TransitDelayPredictor :=
  ⟨"random_forest", ⟨fun _ => 200, none, none⟩, some ["hour"], true⟩

/-- A freshly constructed (never trained) predictor, exactly the value
`TransitDelayPredictor.init "random_forest"` returns. -/
def mFresh : TransitDelayPredictor :=
  ⟨"random_forest", defaultRandomForest, none, false⟩

/-- A one-row, one-column input matching `mClip`'s feature contract. -/
def XClip : PFrame := ⟨[("hour", [1])]⟩

/-- An input with an extra column and the required column out of
position. -/
def XExtra : PFrame := ⟨[("pad", [7]), ("hour", [2])]⟩

/-- An input missing the required `"hour"` column entirely. -/
def XMiss : PFrame := ⟨[("pad", [7])]⟩

/-- Stage 1 of the rolling fold of `_add_lag_features` (window 3, mean). -/
def rc1 (f : Frame) : Frame :=
  f.setCol "delay_rolling_mean_3h" (rollingMeanCol f 3)

/-- Stage 2 of the rolling fold (window 3, std). -/
def rc2 (f : Frame) : Frame :=
  (rc1 f).setCol "delay_rolling_std_3h" (rollingStdCol (rc1 f) 3)

/-- Stage 3 of the rolling fold (window 6, mean). -/
def rc3 (f : Frame) : Frame :=
  (rc2 f).setCol "delay_rolling_mean_6h" (rollingMeanCol (rc2 f) 6)

/-- Stage 4 of the rolling fold (window 6, std). -/
def rc4 (f : Frame) : Frame :=
  (rc3 f).setCol "delay_rolling_std_6h" (rollingStdCol (rc3 f) 6)

/-- Stage 5 of the rolling fold (window 12, mean). -/
def rc5 (f : Frame) : Frame :=
  (rc4 f).setCol "delay_rolling_mean_12h" (rollingMeanCol (rc4 f) 12)

/-- The rolling step of `_add_lag_features` written out: the value of the
window fold over `[3, 6, 12]` (each iteration assigns the mean column and
then the std column of the current frame). -/
def rollingChain (f : Frame) : Frame :=
  (rc5 f).setCol "delay_rolling_std_12h" (rollingStdCol (rc5 f) 12)

/-- The two-row route-"A" frame carrying timestamps ten hours apart and
the delay target already in minutes, as it reaches the rolling step. -/
def F4 : Frame :=
  ⟨[("timestamp", [.time ts0800, .time ts1800]),
    ("route_id", [.str "A", .str "A"]),
    ("delay_minutes", [.rat 0, .rat 6])], [0, 1], false⟩

/-! ## Auxiliary lemmas -/

theorem getCol_eq_none_iff (X : PFrame) (n : String) :
    X.getCol n = none ↔ n ∉ X.columns := by
  simp only [PFrame.getCol]
  rw [Option.map_eq_none', List.find?_eq_none]
  constructor
  · intro h hn
    rcases List.mem_map.1 hn with ⟨c, hc, hcn⟩
    have h2 := h c hc
    simp [hcn] at h2
  · intro h c hc
    simp only [decide_eq_true_eq]
    exact fun e => h (List.mem_map.2 ⟨c, hc, e⟩)

theorem selectCols_ok_of_mem (X : PFrame) (ns : List String)
    (h : ∀ n ∈ ns, n ∈ X.columns) : ∃ cs, X.selectCols ns = .ok cs := by
  induction ns with
  | nil => exact ⟨[], rfl⟩
  | cons n ns ih =>
    rcases hg : X.getCol n with _ | vs
    · exact absurd ((getCol_eq_none_iff X n).1 hg) (not_not_intro (h n (by simp)))
    · rcases ih (fun x hx => h x (List.mem_cons_of_mem _ hx)) with ⟨cs, hcs⟩
      exact ⟨(n, vs) :: cs, by simp [PFrame.selectCols, hg, hcs, Except.map]⟩

theorem selectCols_error_of_missing (X : PFrame) (ns : List String)
    (h : ∃ n ∈ ns, n ∉ X.columns) :
    X.selectCols ns = .error .featureMismatch := by
  induction ns with
  | nil => rcases h with ⟨n, hn, _⟩; cases hn
  | cons n ns ih =>
    rcases h with ⟨x, hx, hxc⟩
    rcases List.mem_cons.1 hx with rfl | hx2
    · have hg : X.getCol x = none := (getCol_eq_none_iff X x).2 hxc
      simp [PFrame.selectCols, hg]
    · rcases hg : X.getCol n with _ | vs
      · simp [PFrame.selectCols, hg]
      · simp [PFrame.selectCols, hg, ih ⟨x, hx2, hxc⟩, Except.map]

theorem find?_setColAux (n m : String) (vs : List Val)
    (cs : List (String × List Val)) :
    (setColAux n vs cs).find? (fun c => c.1 = m) =
      if m = n then some (n, vs) else cs.find? (fun c => c.1 = m) := by
  induction cs with
  | nil =>
    by_cases h : m = n
    · subst h; simp [setColAux, List.find?]
    · have h2 : ¬ n = m := fun e => h e.symm
      simp [setColAux, List.find?, h, h2]
  | cons c cs ih =>
    by_cases hc : c.1 = n
    · by_cases h : m = n
      · subst h; simp [setColAux, hc, List.find?]
      · have h2 : ¬ n = m := fun e => h e.symm
        have hcm : ¬ c.1 = m := fun e => h (e.symm.trans hc)
        simp [setColAux, hc, List.find?, h, h2, hcm]
    · by_cases h2 : c.1 = m
      · have hmn : ¬ m = n := fun e => hc (h2.trans e)
        simp [setColAux, hc, List.find?, h2, hmn]
      · simp [setColAux, hc, List.find?, h2, ih]

theorem getCol_setCol (f : Frame) (n m : String) (vs : List Val) :
    (f.setCol n vs).getCol m = if m = n then some vs else f.getCol m := by
  simp only [Frame.getCol, Frame.setCol, find?_setColAux]
  by_cases h : m = n <;> simp [h]

theorem routeCol_setCol (f : Frame) (n : String) (vs : List Val)
    (h : ¬ "route_id" = n) : (f.setCol n vs).routeCol = f.routeCol := by
  simp [Frame.routeCol, getCol_setCol, h]

theorem delayCol_setCol (f : Frame) (n : String) (vs : List Val)
    (h : ¬ "delay_minutes" = n) : (f.setCol n vs).delayCol = f.delayCol := by
  simp [Frame.delayCol, getCol_setCol, h]

theorem nrows_setCol (f : Frame) (n : String) (vs : List Val)
    (h : vs.length = f.nrows) : (f.setCol n vs).nrows = f.nrows := by
  rcases f with ⟨cols, index, dt⟩
  cases cols with
  | nil => simpa [Frame.setCol, setColAux, Frame.nrows] using h
  | cons c cs =>
    by_cases hc : c.1 = n <;>
      simp_all [Frame.setCol, setColAux, hc, Frame.nrows]

theorem length_rollingMeanCol (f : Frame) (w : Nat) :
    (rollingMeanCol f w).length = f.nrows := by
  simp [rollingMeanCol]

theorem length_rollingStdCol (f : Frame) (w : Nat) :
    (rollingStdCol f w).length = f.nrows := by
  simp [rollingStdCol]

theorem rollingMeanCol_congr (f g : Frame) (w : Nat)
    (hr : g.routeCol = f.routeCol) (hd : g.delayCol = f.delayCol)
    (hn : g.nrows = f.nrows) : rollingMeanCol g w = rollingMeanCol f w := by
  unfold rollingMeanCol rollingWindowVals
  rw [hr, hd, hn]

theorem rollingStdCol_congr (f g : Frame) (w : Nat)
    (hr : g.routeCol = f.routeCol) (hd : g.delayCol = f.delayCol)
    (hn : g.nrows = f.nrows) : rollingStdCol g w = rollingStdCol f w := by
  unfold rollingStdCol rollingWindowVals
  rw [hr, hd, hn]

theorem rollingWindowVals_eq_trailing (routes delays : List Val) (w p : Nat) :
    rollingWindowVals routes delays w p =
      ((((groupPositions routes p).reverse.take w).map
        (fun q => delays.getD q Val.na)).filterMap Val.toRat?).reverse := by
  have h : rollingWindowVals routes delays w p =
      (((groupPositions routes p).rtake w).map
        (fun q => delays.getD q Val.na)).filterMap Val.toRat? := rfl
  rw [h, List.rtake_eq_reverse_take_reverse, List.map_reverse,
    List.filterMap_reverse]

theorem sampleVar_reverse (xs : List Rat) : sampleVar xs.reverse = sampleVar xs := by
  simp [sampleVar, ratMean, List.map_reverse, List.sum_reverse, List.length_reverse]

theorem rollingMeanCol_eq_trailing (f : Frame) (w : Nat) :
    rollingMeanCol f w = trailingObsMeanCol f w := by
  unfold rollingMeanCol trailingObsMeanCol
  refine List.map_congr_left (fun p _ => ?_)
  rw [rollingWindowVals_eq_trailing]
  simp [ratMean, List.sum_reverse, List.length_reverse]

theorem rollingStdCol_eq_trailing (f : Frame) (w : Nat) :
    rollingStdCol f w = trailingObsStdCol f w := by
  unfold rollingStdCol trailingObsStdCol
  refine List.map_congr_left (fun p _ => ?_)
  rw [rollingWindowVals_eq_trailing]
  simp [sampleVar_reverse, List.length_reverse]

theorem getCol_rc1 (f : Frame) (n : String) :
    (rc1 f).getCol n =
      if n = "delay_rolling_mean_3h" then some (rollingMeanCol f 3)
      else f.getCol n := by
  unfold rc1; rw [getCol_setCol]

theorem getCol_rc2 (f : Frame) (n : String) :
    (rc2 f).getCol n =
      if n = "delay_rolling_std_3h" then some (rollingStdCol (rc1 f) 3)
      else (rc1 f).getCol n := by
  unfold rc2; rw [getCol_setCol]

theorem getCol_rc3 (f : Frame) (n : String) :
    (rc3 f).getCol n =
      if n = "delay_rolling_mean_6h" then some (rollingMeanCol (rc2 f) 6)
      else (rc2 f).getCol n := by
  unfold rc3; rw [getCol_setCol]

theorem getCol_rc4 (f : Frame) (n : String) :
    (rc4 f).getCol n =
      if n = "delay_rolling_std_6h" then some (rollingStdCol (rc3 f) 6)
      else (rc3 f).getCol n := by
  unfold rc4; rw [getCol_setCol]

theorem getCol_rc5 (f : Frame) (n : String) :
    (rc5 f).getCol n =
      if n = "delay_rolling_mean_12h" then some (rollingMeanCol (rc4 f) 12)
      else (rc4 f).getCol n := by
  unfold rc5; rw [getCol_setCol]

theorem getCol_rollingChain (f : Frame) (n : String) :
    (rollingChain f).getCol n =
      if n = "delay_rolling_std_12h" then some (rollingStdCol (rc5 f) 12)
      else (rc5 f).getCol n := by
  unfold rollingChain; rw [getCol_setCol]

theorem rc1_state (f : Frame) :
    (rc1 f).routeCol = f.routeCol ∧ (rc1 f).delayCol = f.delayCol ∧
      (rc1 f).nrows = f.nrows :=
  ⟨routeCol_setCol f _ _ (by decide), delayCol_setCol f _ _ (by decide),
    nrows_setCol f _ _ (length_rollingMeanCol f 3)⟩

theorem rc2_state (f : Frame) :
    (rc2 f).routeCol = f.routeCol ∧ (rc2 f).delayCol = f.delayCol ∧
      (rc2 f).nrows = f.nrows :=
  ⟨(routeCol_setCol (rc1 f) _ _ (by decide)).trans (rc1_state f).1,
    (delayCol_setCol (rc1 f) _ _ (by decide)).trans (rc1_state f).2.1,
    (nrows_setCol (rc1 f) _ _ (length_rollingStdCol (rc1 f) 3)).trans
      (rc1_state f).2.2⟩

theorem rc3_state (f : Frame) :
    (rc3 f).routeCol = f.routeCol ∧ (rc3 f).delayCol = f.delayCol ∧
      (rc3 f).nrows = f.nrows :=
  ⟨(routeCol_setCol (rc2 f) _ _ (by decide)).trans (rc2_state f).1,
    (delayCol_setCol (rc2 f) _ _ (by decide)).trans (rc2_state f).2.1,
    (nrows_setCol (rc2 f) _ _ (length_rollingMeanCol (rc2 f) 6)).trans
      (rc2_state f).2.2⟩

theorem rc4_state (f : Frame) :
    (rc4 f).routeCol = f.routeCol ∧ (rc4 f).delayCol = f.delayCol ∧
      (rc4 f).nrows = f.nrows :=
  ⟨(routeCol_setCol (rc3 f) _ _ (by decide)).trans (rc3_state f).1,
    (delayCol_setCol (rc3 f) _ _ (by decide)).trans (rc3_state f).2.1,
    (nrows_setCol (rc3 f) _ _ (length_rollingStdCol (rc3 f) 6)).trans
      (rc3_state f).2.2⟩

theorem rc5_state (f : Frame) :
    (rc5 f).routeCol = f.routeCol ∧ (rc5 f).delayCol = f.delayCol ∧
      (rc5 f).nrows = f.nrows :=
  ⟨(routeCol_setCol (rc4 f) _ _ (by decide)).trans (rc4_state f).1,
    (delayCol_setCol (rc4 f) _ _ (by decide)).trans (rc4_state f).2.1,
    (nrows_setCol (rc4 f) _ _ (length_rollingMeanCol (rc4 f) 12)).trans
      (rc4_state f).2.2⟩

theorem rollingStdCol_rc1 (f : Frame) (w : Nat) :
    rollingStdCol (rc1 f) w = rollingStdCol f w :=
  rollingStdCol_congr f (rc1 f) w (rc1_state f).1 (rc1_state f).2.1
    (rc1_state f).2.2

theorem rollingMeanCol_rc2 (f : Frame) (w : Nat) :
    rollingMeanCol (rc2 f) w = rollingMeanCol f w :=
  rollingMeanCol_congr f (rc2 f) w (rc2_state f).1 (rc2_state f).2.1
    (rc2_state f).2.2

theorem rollingStdCol_rc3 (f : Frame) (w : Nat) :
    rollingStdCol (rc3 f) w = rollingStdCol f w :=
  rollingStdCol_congr f (rc3 f) w (rc3_state f).1 (rc3_state f).2.1
    (rc3_state f).2.2

theorem rollingMeanCol_rc4 (f : Frame) (w : Nat) :
    rollingMeanCol (rc4 f) w = rollingMeanCol f w :=
  rollingMeanCol_congr f (rc4 f) w (rc4_state f).1 (rc4_state f).2.1
    (rc4_state f).2.2

theorem rollingStdCol_rc5 (f : Frame) (w : Nat) :
    rollingStdCol (rc5 f) w = rollingStdCol f w :=
  rollingStdCol_congr f (rc5 f) w (rc5_state f).1 (rc5_state f).2.1
    (rc5_state f).2.2

theorem addLagFeatures_nil (f : Frame)
    (h : "delay_minutes" ∈ f.colNames ∧ "route_id" ∈ f.colNames) :
    addLagFeatures [] f = .ok (rollingChain f) := by
  unfold addLagFeatures
  rw [if_pos h]
  rfl

theorem lor_ite_or (a b : Prop) [Decidable a] [Decidable b] :
    Nat.lor (if a then 1 else 0) (if b then 1 else 0) =
      if a ∨ b then 1 else 0 := by
  by_cases ha : a <;> by_cases hb : b <;> simp [ha, hb] <;> decide

/-! ## Claim theorems -/

/-- Claim C2: every value returned by a successful `predict` lies in the
closed interval `[-10, 60]` minutes, whatever the raw estimator output
was (the source clips with `np.clip(predictions, -10, 60)`). -/
theorem predict_output_clamped (m : TransitDelayPredictor) (X : PFrame)
    (ys : List Rat) (h : m.predict X = .ok ys) :
    ∀ y ∈ ys, -10 ≤ y ∧ y ≤ 60 := by
  unfold TransitDelayPredictor.predict at h
  by_cases ht : m.is_trained = false
  · rw [if_pos ht] at h; cases h
  · rw [if_neg ht] at h
    rcases hf : m.feature_names with _ | ns
    · simp only [hf] at h; exact (Except.noConfusion h)
    · simp only [hf] at h
      rcases hE : (if X.columns = ns then Except.ok X else X.select ns) with e | X2
      · rw [hE] at h; simp [Except.map] at h
      · rw [hE] at h
        simp only [Except.map, Except.ok.injEq] at h
        intro y hy
        rw [← h] at hy
        rcases List.mem_map.1 hy with ⟨r, _, hr⟩
        refine hr ▸ ⟨le_min (le_max_right _ _) (by norm_num), min_le_right _ _⟩

/-- Witness for C2: a trained predictor whose raw estimator outputs 200
returns the prediction 60 — clamped into the interval. -/
theorem predict_output_clamped_witness :
    mClip.predict XClip = .ok [60] ∧ -10 ≤ (60 : Rat) ∧ (60 : Rat) ≤ 60 :=
  ⟨by rfl,
    predict_output_clamped mClip XClip [60] (by rfl) 60 (List.mem_singleton.2 rfl)⟩

/-- Claim C3: on a freshly constructed (never-trained) predictor, each of
`predict`, `predict_with_confidence`, `get_feature_importance` and `save`
raises the untrained-state error (spec: `NotTrainedError`; source: a
`ValueError` with an untrained-model message), and none of them silently
succeeds or auto-trains. -/
theorem untrained_ops_raise (mt : String) (m : TransitDelayPredictor) (X : PFrame)
    (h : TransitDelayPredictor.init mt = .ok m) :
    m.predict X = .error .notTrained ∧
    m.predict_with_confidence X = .error .notTrained ∧
    m.get_feature_importance = .error .notTrained ∧
    m.save = .error .notTrained := by
  have hm : m.is_trained = false := by
    unfold TransitDelayPredictor.init at h
    split_ifs at h <;> cases h <;> rfl
  have hp : m.predict X = .error .notTrained := by
    simp [TransitDelayPredictor.predict, hm]
  refine ⟨hp, ?_, ?_, ?_⟩
  · unfold TransitDelayPredictor.predict_with_confidence
    rw [hp]
    rfl
  · simp [TransitDelayPredictor.get_feature_importance, hm]
  · simp [TransitDelayPredictor.save, hm]

/-- Witness for C3: the four operations all fail with the untrained-state
error on the predictor `init "random_forest"` returns. -/
theorem untrained_ops_raise_witness :
    mFresh.predict XClip = .error .notTrained ∧
    mFresh.predict_with_confidence XClip = .error .notTrained ∧
    mFresh.get_feature_importance = .error .notTrained ∧
    mFresh.save = .error .notTrained :=
  untrained_ops_raise "random_forest" mFresh XClip (by rfl)

/-- Claim C4: for a trained predictor (its model-type tag being one of the
two the constructor accepts), `load` after `save` reconstructs the very
same predictor state — estimator, model-type tag, feature-name list and
trained flag — and therefore `load(save(m))` predicts identically to `m`
on every input. -/
theorem save_load_roundtrip (m : TransitDelayPredictor) (X : PFrame)
    (ht : m.is_trained = true)
    (hmt : m.model_type = "random_forest" ∨ m.model_type = "gradient_boosting") :
    Except.bind m.save TransitDelayPredictor.load = .ok m ∧
    (Except.bind m.save TransitDelayPredictor.load).map (fun m2 => m2.predict X) =
      .ok (m.predict X) := by
  have hsl : Except.bind m.save TransitDelayPredictor.load = .ok m := by
    cases m with
    | mk mt mdl fn tr =>
      simp only at ht hmt
      subst ht
      rcases hmt with h | h <;> subst h <;>
        simp [TransitDelayPredictor.save, TransitDelayPredictor.load,
          TransitDelayPredictor.init, Except.bind, Except.map]
  exact ⟨hsl, by rw [hsl]; rfl⟩

/-- Witness for C4: the round trip at the concrete trained predictor
`mClip` and input `XClip`. -/
theorem save_load_roundtrip_witness :
    Except.bind mClip.save TransitDelayPredictor.load = .ok mClip ∧
    (Except.bind mClip.save TransitDelayPredictor.load).map (fun m2 => m2.predict XClip) =
      .ok (mClip.predict XClip) :=
  save_load_roundtrip mClip XClip (by rfl) (Or.inl (by rfl))

/-- Claim C7: for a trained predictor, when the input contains every
required feature (possibly among extra columns or in a different order),
`predict` succeeds by selecting/reordering the columns; when some
required feature is absent from the input's columns entirely, `predict`
fails with the column-selection `KeyError` (spec: `FeatureMismatchError`)
and never fabricates the feature. -/
theorem predict_reorders_or_mismatch (m : TransitDelayPredictor)
    (ns : List String) (X : PFrame)
    (ht : m.is_trained = true) (hf : m.feature_names = some ns) :
    ((∀ n ∈ ns, n ∈ X.columns) → ∃ ys, m.predict X = .ok ys) ∧
    ((∃ n ∈ ns, n ∉ X.columns) → m.predict X = .error .featureMismatch) := by
  have htt : ¬ m.is_trained = false := by simp [ht]
  constructor
  · intro hall
    unfold TransitDelayPredictor.predict
    rw [if_neg htt]
    simp only [hf]
    by_cases hcols : X.columns = ns
    · rw [if_pos hcols]; exact ⟨_, rfl⟩
    · rw [if_neg hcols]
      rcases selectCols_ok_of_mem X ns hall with ⟨cs, hcs⟩
      refine ⟨(PFrame.mk cs).rowsOf.map (fun r => npClip (m.model.raw r) (-10) 60), ?_⟩
      simp [PFrame.select, hcs, Except.map]
  · rintro ⟨n, hn, hnc⟩
    have hcols : X.columns ≠ ns := fun e => hnc (e ▸ hn)
    unfold TransitDelayPredictor.predict
    rw [if_neg htt]
    simp only [hf]
    rw [if_neg hcols]
    simp [PFrame.select, selectCols_error_of_missing X ns ⟨n, hn, hnc⟩, Except.map]

/-- Witness for C7: `mClip` (contract `["hour"]`) succeeds on `XExtra`
(extra column, required column out of position) and fails with the
feature-mismatch error on `XMiss` (required column absent). -/
theorem predict_reorders_or_mismatch_witness :
    (∃ ys, mClip.predict XExtra = .ok ys) ∧
    mClip.predict XMiss = .error .featureMismatch :=
  ⟨(predict_reorders_or_mismatch mClip ["hour"] XExtra (by rfl) (by rfl)).1
      (by decide),
    (predict_reorders_or_mismatch mClip ["hour"] XMiss (by rfl) (by rfl)).2
      ⟨"hour", by decide, by decide⟩⟩

/-- Claim C1 (claim refuted by the running code): on the specification's
own lag example — route "14" observed at 08:00 and 10:30, in a frame with
the default integer `RangeIndex`, exactly as the repository's callers and
its own tests build it — `create_features` with the default lag horizons
raises pandas' `NotImplementedError` (from `Series.shift(freq='1H')` on a
non-datetime index) before producing any lag column, so no row ever
receives the claimed most-recent-delay-at-or-before-`T−H` lag value. -/
theorem lag_shift_raises_on_default_index :
    defaultEngine.create_features F1 false false = .error .notImplemented := by
  rfl

/-- Claim C5: the delay target.  When the direct duration column
`delay_seconds` is present, `delay_minutes` is that column divided by 60,
regardless of whether the aimed/expected pair is also present (the direct
field takes precedence); when only the aimed/expected pair is present,
`delay_minutes` is `(expected − aimed)` in minutes. -/
theorem delay_target_sources (f : Frame) :
    ("delay_seconds" ∈ f.colNames →
      (addDelayFeatures f).getCol "delay_minutes" =
        some (((f.getCol "delay_seconds").getD []).map valDiv60)) ∧
    (("delay_seconds" ∉ f.colNames ∧ "aimed_arrival" ∈ f.colNames ∧
        "expected_arrival" ∈ f.colNames) →
      (addDelayFeatures f).getCol "delay_minutes" =
        some (List.zipWith minutesBetween ((f.getCol "aimed_arrival").getD [])
          ((f.getCol "expected_arrival").getD []))) := by
  constructor
  · intro h
    unfold addDelayFeatures
    rw [if_pos h, getCol_setCol]
    simp
  · rintro ⟨h1, h2, h3⟩
    unfold addDelayFeatures
    rw [if_neg h1, if_pos ⟨h2, h3⟩, getCol_setCol]
    simp

/-- Witness for C5: an event with `delay_seconds = 180` and an
aimed/expected pair both present yields exactly 3.0 minutes (the direct
field wins), and an event with only a pair five minutes apart yields
exactly 5.0 minutes. -/
theorem delay_target_sources_witness :
    (addDelayFeatures FBoth).getCol "delay_minutes" = some [Val.rat 3] ∧
    (addDelayFeatures FPair).getCol "delay_minutes" = some [Val.rat 5] := by
  constructor
  · have hd : FBoth.getCol "delay_seconds" = some [Val.int 180] := rfl
    rw [(delay_target_sources FBoth).1 (by decide), hd]
    simp only [Option.getD_some, List.map_cons, List.map_nil, valDiv60]
    norm_num
  · have ha : FPair.getCol "aimed_arrival" = some [Val.time ts1800] := rfl
    have he : FPair.getCol "expected_arrival" = some [Val.time ts1805] := rfl
    rw [(delay_target_sources FPair).2 ⟨by decide, by decide, by decide⟩, ha, he]
    simp only [Option.getD_some, List.zipWith_cons_cons, List.zipWith_nil_right,
      minutesBetween, ts1800, ts1805]
    norm_num

/-- Claim C6, counterexample: at the concrete input `F4` (route "A",
observations ten hours apart), the rolling step produces a
`delay_rolling_mean_3h` column of `[0, 3]` — the mean of the last three
*rows* — while the trailing three-hour *time* window of the claim gives
`[0, 6]`; the two disagree.  (The lag-horizon list is empty so that the
rolling code is reached at all; with any configured horizon the lag step
raises first — see the C1 theorem.) -/
theorem rolling_time_window_counterexample :
    addLagFeatures [] F4 = .ok (rollingChain F4) ∧
    (rollingChain F4).getCol "delay_rolling_mean_3h" =
      some [Val.rat 0, Val.rat 3] ∧
    specTimeWindowRollingMeanCol 3 F4 = [Val.rat 0, Val.rat 6] ∧
    (rollingChain F4).getCol "delay_rolling_mean_3h" ≠
      some (specTimeWindowRollingMeanCol 3 F4) := by
  have hroute : F4.routeCol = [Val.str "A", Val.str "A"] := rfl
  have hdelay : F4.delayCol = [Val.rat 0, Val.rat 6] := rfl
  have hts : F4.timestampCol = [ts0800, ts1800] := rfl
  have hn : F4.nrows = 2 := rfl
  have hmean : (rollingChain F4).getCol "delay_rolling_mean_3h" =
      some [Val.rat 0, Val.rat 3] := by
    rw [getCol_rollingChain, if_neg (by decide), getCol_rc5, if_neg (by decide),
      getCol_rc4, if_neg (by decide), getCol_rc3, if_neg (by decide),
      getCol_rc2, if_neg (by decide), getCol_rc1, if_pos rfl]
    simp [rollingMeanCol, rollingWindowVals, groupPositions, hroute, hdelay, hn,
      List.range_succ, ratMean, Val.toRat?]
    norm_num
  have hspec : specTimeWindowRollingMeanCol 3 F4 = [Val.rat 0, Val.rat 6] := by
    simp [specTimeWindowRollingMeanCol, hroute, hdelay, hts, hn,
      List.range_succ, ratMean, Val.toRat?, ts0800, ts1800]
  refine ⟨addLagFeatures_nil F4 ⟨by decide, by decide⟩, hmean, hspec, ?_⟩
  rw [hmean, hspec]
  intro hEq
  have h36 : Val.rat 3 = Val.rat 6 := by
    have := Option.some.inj hEq
    exact (List.cons.inj (List.cons.inj this).2).1
  have : (3 : Rat) = 6 := Val.rat.inj h36
  norm_num at this

/-- Claim C6 as amended: the rolling features are computed per route with
minimum one observation, but over the trailing window of the last `W`
*observations* (row-count window) of the route's series, not over a
trailing `W`-hour time window; the std is unknown until the window holds
at least two observations.  (Stated for an engine whose lag-horizon list
is empty, since with any configured lag horizon the lag step raises
before the rolling step is reached — see the C1 theorem.) -/
theorem rolling_windows_positional (f : Frame)
    (h1 : "delay_minutes" ∈ f.colNames) (h2 : "route_id" ∈ f.colNames) :
    ∃ g, addLagFeatures [] f = .ok g ∧
      g.getCol "delay_rolling_mean_3h" = some (trailingObsMeanCol f 3) ∧
      g.getCol "delay_rolling_std_3h" = some (trailingObsStdCol f 3) ∧
      g.getCol "delay_rolling_mean_6h" = some (trailingObsMeanCol f 6) ∧
      g.getCol "delay_rolling_std_6h" = some (trailingObsStdCol f 6) ∧
      g.getCol "delay_rolling_mean_12h" = some (trailingObsMeanCol f 12) ∧
      g.getCol "delay_rolling_std_12h" = some (trailingObsStdCol f 12) := by
  refine ⟨rollingChain f, addLagFeatures_nil f ⟨h1, h2⟩, ?_, ?_, ?_, ?_, ?_, ?_⟩
  · rw [getCol_rollingChain, if_neg (by decide), getCol_rc5, if_neg (by decide),
      getCol_rc4, if_neg (by decide), getCol_rc3, if_neg (by decide),
      getCol_rc2, if_neg (by decide), getCol_rc1, if_pos rfl,
      rollingMeanCol_eq_trailing]
  · rw [getCol_rollingChain, if_neg (by decide), getCol_rc5, if_neg (by decide),
      getCol_rc4, if_neg (by decide), getCol_rc3, if_neg (by decide),
      getCol_rc2, if_pos rfl, rollingStdCol_rc1, rollingStdCol_eq_trailing]
  · rw [getCol_rollingChain, if_neg (by decide), getCol_rc5, if_neg (by decide),
      getCol_rc4, if_neg (by decide), getCol_rc3, if_pos rfl,
      rollingMeanCol_rc2, rollingMeanCol_eq_trailing]
  · rw [getCol_rollingChain, if_neg (by decide), getCol_rc5, if_neg (by decide),
      getCol_rc4, if_pos rfl, rollingStdCol_rc3, rollingStdCol_eq_trailing]
  · rw [getCol_rollingChain, if_neg (by decide), getCol_rc5, if_pos rfl,
      rollingMeanCol_rc4, rollingMeanCol_eq_trailing]
  · rw [getCol_rollingChain, if_pos rfl, rollingStdCol_rc5,
      rollingStdCol_eq_trailing]

/-- Witness for the amended C6 at the concrete two-row route-"A" frame
`F3`. -/
theorem rolling_windows_positional_witness :
    ∃ g, addLagFeatures [] F3 = .ok g ∧
      g.getCol "delay_rolling_mean_3h" = some (trailingObsMeanCol F3 3) ∧
      g.getCol "delay_rolling_std_3h" = some (trailingObsStdCol F3 3) ∧
      g.getCol "delay_rolling_mean_6h" = some (trailingObsMeanCol F3 6) ∧
      g.getCol "delay_rolling_std_6h" = some (trailingObsStdCol F3 6) ∧
      g.getCol "delay_rolling_mean_12h" = some (trailingObsMeanCol F3 12) ∧
      g.getCol "delay_rolling_std_12h" = some (trailingObsStdCol F3 12) :=
  rolling_windows_positional F3 (by decide) (by decide)

/-- Claim C9: `create_features` mutates only the fresh copy it allocates;
the caller's frame object — indeed every frame already on the heap — is
bit-identical after the call, for any configuration, any optional feature
toggles, and regardless of whether the call succeeds or raises. -/
theorem create_features_preserves_caller (e : TransitFeatureEngine)
    (heap : Heap) (r i : Nat) (iw ie : Bool) (h : i < heap.length) :
    ((createFeaturesH e heap r iw ie).1)[i]? = heap[i]? := by
  unfold createFeaturesH
  simp [List.getElem?_append, h]

/-- Witness for C9 at the concrete one-frame heap `[F1]` (on which the
call raises) — the caller's frame is unchanged. -/
theorem create_features_preserves_caller_witness :
    ((createFeaturesH defaultEngine [F1] 0 false false).1)[0]? = ([F1])[0]? :=
  create_features_preserves_caller defaultEngine [F1] 0 0 false false (by decide)

/-- Claim C10: for frames with a timestamp column, `is_morning_peak` is 1
exactly when the hour-of-day lies in `[7, 9]`, `is_evening_peak` is 1
exactly when it lies in `[16, 18]`, and `is_peak_hour` is 1 exactly when
at least one of the two is — all three columns being 0/1 valued. -/
theorem peak_hour_flags (f : Frame) (h : "timestamp" ∈ f.colNames) :
    (addTemporalFeatures f).getCol "is_morning_peak" =
      some ((f.timestampCol).map (fun t =>
        Val.int (if 7 ≤ t.hour ∧ t.hour ≤ 9 then 1 else 0))) ∧
    (addTemporalFeatures f).getCol "is_evening_peak" =
      some ((f.timestampCol).map (fun t =>
        Val.int (if 16 ≤ t.hour ∧ t.hour ≤ 18 then 1 else 0))) ∧
    (addTemporalFeatures f).getCol "is_peak_hour" =
      some ((f.timestampCol).map (fun t =>
        Val.int (if (7 ≤ t.hour ∧ t.hour ≤ 9) ∨ (16 ≤ t.hour ∧ t.hour ≤ 18)
          then 1 else 0))) := by
  unfold addTemporalFeatures
  rw [if_pos h]
  refine ⟨?_, ?_, ?_⟩
  · rw [getCol_setCol, if_neg (by decide), getCol_setCol, if_neg (by decide),
      getCol_setCol, if_neg (by decide), getCol_setCol, if_neg (by decide),
      getCol_setCol, if_neg (by decide), getCol_setCol, if_neg (by decide),
      getCol_setCol, if_pos rfl]
    refine congrArg some ?_
    rw [List.map_map, List.map_map]
    refine List.map_congr_left (fun t _ => ?_)
    by_cases hc : 7 ≤ t.hour ∧ t.hour ≤ 9 <;> simp [Function.comp, hc]
  · rw [getCol_setCol, if_neg (by decide), getCol_setCol, if_neg (by decide),
      getCol_setCol, if_neg (by decide), getCol_setCol, if_neg (by decide),
      getCol_setCol, if_neg (by decide), getCol_setCol, if_pos rfl]
    refine congrArg some ?_
    rw [List.map_map, List.map_map]
    refine List.map_congr_left (fun t _ => ?_)
    by_cases hc : 16 ≤ t.hour ∧ t.hour ≤ 18 <;> simp [Function.comp, hc]
  · rw [getCol_setCol, if_neg (by decide), getCol_setCol, if_neg (by decide),
      getCol_setCol, if_neg (by decide), getCol_setCol, if_neg (by decide),
      getCol_setCol, if_pos rfl]
    refine congrArg some ?_
    rw [List.zip_map', List.map_map, List.map_map]
    refine List.map_congr_left (fun t _ => ?_)
    by_cases ha : 7 ≤ t.hour ∧ t.hour ≤ 9 <;>
      by_cases hb : 16 ≤ t.hour ∧ t.hour ≤ 18 <;>
        simp [Function.comp, ha, hb] <;> decide

/-- Witness for C10 at the concrete frame `F2` (hours 8 and 18: one
morning-peak row, one evening-peak row, both peak rows). -/
theorem peak_hour_flags_witness :
    (addTemporalFeatures F2).getCol "is_morning_peak" =
      some ((F2.timestampCol).map (fun t =>
        Val.int (if 7 ≤ t.hour ∧ t.hour ≤ 9 then 1 else 0))) ∧
    (addTemporalFeatures F2).getCol "is_evening_peak" =
      some ((F2.timestampCol).map (fun t =>
        Val.int (if 16 ≤ t.hour ∧ t.hour ≤ 18 then 1 else 0))) ∧
    (addTemporalFeatures F2).getCol "is_peak_hour" =
      some ((F2.timestampCol).map (fun t =>
        Val.int (if (7 ≤ t.hour ∧ t.hour ≤ 9) ∨ (16 ≤ t.hour ∧ t.hour ≤ 18)
          then 1 else 0))) :=
  peak_hour_flags F2 (by decide)

end SFTransit
